/-
  Verification of the Media Identity Resolution & Stream Mapping Engine
  of the `stremio-torbox-status` addon (source: `index.js`).

  Shallow embedding of the addon's pure data manipulation and of its
  stateful handlers: process-wide caches become explicit state that is
  threaded through the functions, outbound HTTP calls become scripted
  response lists (one response consumed per network call), thrown
  exceptions become `Except`/`Option` results, and the third-party
  `parse-torrent-title` library becomes an uninterpreted parameter
  `ptt : String -> PttResult` (only its wrapper `parseTorrentName` is
  repository code).
-/
import Mathlib

namespace TorboxStatus

/-! ## JavaScript value helpers (truthiness, Map semantics) -/

/-- Truthiness of a JS optional string: `undefined` and `""` are falsy. -/
def strTruthy : Option String → Bool
  | some s => s != ""
  | none => false

/-- Truthiness of a JS optional number: `undefined` and `0` are falsy
    (the addon only ever holds integral numbers in these fields). -/
def intTruthy : Option Int → Bool
  | some n => n != 0
  | none => false

/-- JS `a || d` for an optional string `a` and string default `d`. -/
def jsOrStr (o : Option String) (d : String) : String :=
  match o with
  | some s => if s = "" then d else s
  | none => d

/-- JS `a || null` for an optional number: `0` collapses to `null`. -/
def jsNum (o : Option Int) : Option Int :=
  match o with
  | some n => if n = 0 then none else some n
  | none => none

/-- JS `a || b || null` over two optional strings. -/
def jsStrOpt (a b : Option String) : Option String :=
  if strTruthy a then a else if strTruthy b then b else none

/-- `Map.get`: the value stored under string key `k`, if any. -/
def lookupAssoc {α : Type} : List (String × α) → String → Option α
  | [], _ => none
  | (k', v) :: rest, k => if k' = k then some v else lookupAssoc rest k

/-- `Map.set`: replace the entry in place when the key exists (JS `Map`
    keeps the original insertion position), append otherwise. -/
def setAssoc {α : Type} : List (String × α) → String → α → List (String × α)
  | [], k, v => [(k, v)]
  | (k', v') :: rest, k, v =>
    if k' = k then (k, v) :: rest else (k', v') :: setAssoc rest k v

/-! ## Timestamps: `parseDate` (index.js lines 244-260) -/

/-- A JS timestamp field value as it reaches `parseDate`: either a
    number, or a string carried together with the result of the engine's
    ISO parse `new Date(s).getTime()` (`none` = `NaN`, an Invalid Date). -/
inductive TsVal
  | num (n : Int)
  | str (s : String) (parsed : Option Int)
deriving Repr, DecidableEq

/-- Truthiness of a timestamp value (`0` and `""` are falsy). -/
def tsTruthy : TsVal → Bool
  | .num n => n != 0
  | .str s _ => s != ""

/-- `parseDate(dateValue)`. Outer `none` is the JS `null` return; the
    inner `Option Int` is the resulting `Date`'s `getTime()` in
    milliseconds, with `none` for an Invalid Date (`NaN`). -/
def parseDate : Option TsVal → Option (Option Int)
  | none => none
  | some v =>
    if tsTruthy v then
      match v with
      | .num n => if n > 10 ^ 12 then some (some n) else some (some (n * 1000))
      | .str _ p => some p
    else none

/-! ## Name parsing: `parseTorrentName` (index.js lines 86-100) -/

inductive MediaType
  | movie
  | series
deriving Repr, DecidableEq

def typeStr : MediaType → String
  | .movie => "movie"
  | .series => "series"

/-- Result object of the third-party `ptt.parse`. The library is not
    part of this repository, so its output is taken as data. -/
structure PttResult where
  title : Option String
  year : Option Int
  season : Option Int
  episode : Option Int
  resolution : Option String
  quality : Option String
deriving Repr, DecidableEq

structure Descriptor where
  title : String
  year : Option Int
  season : Option Int
  episode : Option Int
  quality : Option String
  type : MediaType
deriving Repr, DecidableEq

/-- `parseTorrentName(name)`, with the library call `ptt.parse(name)`
    supplied as `p`. -/
def parseTorrentName (p : PttResult) (name : String) : Descriptor :=
  { title := jsOrStr p.title name
    year := jsNum p.year
    season := jsNum p.season
    episode := jsNum p.episode
    quality := jsStrOpt p.resolution p.quality
    type := if intTruthy p.season || intTruthy p.episode then .series else .movie }

/-! ## `extractQuality` (index.js lines 326-334) -/

/-- Does the needle occur at the head of the haystack? -/
def leadsWith : List Char → List Char → Bool
  | [], _ => true
  | _ :: _, [] => false
  | n :: ns, h :: hs => n == h && leadsWith ns hs

/-- Does the needle occur anywhere in the haystack? -/
def hasSubstr : List Char → List Char → Bool
  | [], needle => needle.isEmpty
  | h :: t, needle => leadsWith needle (h :: t) || hasSubstr t needle

/-- JS `s.toUpperCase()` (the tags involved are ASCII). -/
def upperStr (s : String) : String := String.mk (s.toList.map Char.toUpper)

/-- JS `s.toLowerCase()` (the extensions involved are ASCII). -/
def lowerStr (s : String) : String := String.mk (s.toList.map Char.toLower)

/-- JS `haystack.includes(needle)`. -/
def strIncludes (h n : String) : Bool := hasSubstr h.toList n.toList

/-- JS `s.endsWith(post)`. -/
def strEndsWith (s post : String) : Bool :=
  leadsWith post.toList.reverse s.toList.reverse

/-- JS `s.startsWith(pre)`. -/
def strBeginsWith (s pre : String) : Bool := leadsWith pre.toList s.toList

/-- JS `s.slice(n)` by characters (ASCII here). -/
def strDropChars (s : String) (n : Nat) : String := String.mk (s.toList.drop n)

def qualityTags : List String :=
  ["2160p", "4K", "UHD", "1080p", "720p", "480p", "HDR", "DV", "REMUX"]

def extractQuality (name : String) : String :=
  match qualityTags.find? (fun q => strIncludes (upperStr name) (upperStr q)) with
  | some q => q
  | none => ""

/-! ## `generatePoster` (index.js lines 300-304) -/

def hexDigitChar (n : Nat) : Char :=
  if n < 10 then Char.ofNat (48 + n) else Char.ofNat (55 + n)

/-- UTF-8 bytes of a character (standard encoding). -/
def utf8Bytes (c : Char) : List Nat :=
  let n := c.toNat
  if n < 128 then [n]
  else if n < 2048 then [192 + n / 64, 128 + n % 64]
  else if n < 65536 then [224 + n / 4096, 128 + (n / 64) % 64, 128 + n % 64]
  else [240 + n / 262144, 128 + (n / 4096) % 64, 128 + (n / 64) % 64, 128 + n % 64]

/-- Characters `encodeURIComponent` leaves unescaped
    (alphanumerics and `- _ . ! ~ * ' ( )`; code 39 is the apostrophe). -/
def uriUnreserved (c : Char) : Bool :=
  c.isAlphanum || c ∈ ['-', '_', '.', '!', '~', '*', '(', ')', Char.ofNat 39]

def encodeURIComponent (s : String) : String :=
  String.mk (s.toList.foldr
    (fun c acc =>
      if uriUnreserved c then c :: acc
      else (utf8Bytes c).foldr
        (fun b a => '%' :: hexDigitChar (b / 16) :: hexDigitChar (b % 16) :: a) acc)
    [])

def generatePoster (emoji value bgColor : String) : String :=
  "https://placehold.co/300x450/" ++ bgColor ++ "/ffffff?text=" ++
    encodeURIComponent (emoji ++ "\n" ++ value) ++ "&font=roboto"

/-! ## Cinemeta search: `searchCinemeta` (index.js lines 109-164) -/

/-- `title.replace(/[^\w\s]/g, ' ').replace(/\s+/g, ' ').trim()`:
    non-word, non-space characters become spaces, runs of whitespace
    collapse, ends trimmed (`\w` is `[A-Za-z0-9_]`). -/
def cleanTitle (title : String) : String :=
  let replaced := title.toList.map
    (fun c => if c.isAlphanum || c = '_' || c.isWhitespace then c else ' ')
  String.intercalate " "
    (((String.mk replaced).split (fun c => c.isWhitespace)).filter
      (fun t => t != ""))

/-- JS `parseInt` at base 10 (leading whitespace, optional sign, leading
    digits; `none` = `NaN`). The `0x` hex-prefix detection of the real
    builtin never arises on the release-year strings this addon feeds it
    and is omitted. -/
def parseIntJs (s : String) : Option Int :=
  match s.toList.dropWhile (fun c => c.isWhitespace) with
  | [] => none
  | c :: rest =>
    let signed : Bool × List Char :=
      if c = '-' then (true, rest)
      else if c = '+' then (false, rest)
      else (false, c :: rest)
    let digits := signed.2.takeWhile (fun c => c.isDigit)
    if digits.isEmpty then none
    else
      let n : Nat := digits.foldl (fun a c => a * 10 + (c.toNat - 48)) 0
      some (if signed.1 then -(n : Int) else (n : Int))

/-- A candidate record returned by the Cinemeta search/meta endpoints. -/
structure Record where
  id : String
  name : String
  poster : Option String
  background : Option String
  description : Option String
  releaseInfo : Option String
  imdbRating : Option String
  year : Option Int
deriving Repr, DecidableEq

/-- The two process-wide Cinemeta caches (`searchCache`, `cinemetaCache`).
    A `searchCache` value of `none` is the cached negative result. -/
structure SearchState where
  searchCache : List (String × Option Record)
  cinemetaCache : List (String × Record)
deriving Repr, DecidableEq

/-- One scripted response of the external search endpoint: a non-success
    HTTP status, a transport/timeout error (rejected promise), or a
    completed JSON body with its `metas` list. -/
inductive FetchResult
  | httpError (status : Nat)
  | transportError
  | ok (metas : List Record)
deriving Repr, DecidableEq

/-- The cache key `` `${type}:${title}:${year || ''}` ``. -/
def cacheKey (ty : MediaType) (title : String) (year : Option Int) : String :=
  typeStr ty ++ ":" ++ title ++ ":" ++
    (match year with
     | some y => if y = 0 then "" else toString y
     | none => "")

/-- `m.year || (m.releaseInfo && parseInt(m.releaseInfo))` strictly
    equals the requested year. -/
def metaYearMatches (m : Record) (y : Int) : Bool :=
  match m.year with
  | some my =>
    if my != 0 then my == y
    else match m.releaseInfo with
      | some s => if s != "" then parseIntJs s == some y else false
      | none => false
  | none =>
    match m.releaseInfo with
    | some s => if s != "" then parseIntJs s == some y else false
    | none => false

/-- Best match among the returned candidates: the first one, unless a
    truthy requested year exactly matches some candidate's year
    (index.js lines 142-150). `none` iff the candidate list is empty. -/
def bestMatchOf (metas : List Record) (year : Option Int) : Option Record :=
  match metas with
  | [] => none
  | m0 :: _ =>
    match year with
    | some y =>
      if y = 0 then some m0
      else
        match metas.find? (fun m => metaYearMatches m y) with
        | some m => some m
        | none => some m0
    | none => some m0

def CINEMETA_URL : String := "https://v3-cinemeta.strem.io"

/-- The search URL the call would fetch (index.js line 123). -/
def searchUrl (ty : MediaType) (title : String) : String :=
  CINEMETA_URL ++ "/catalog/" ++ typeStr ty ++ "/top/search=" ++
    encodeURIComponent (cleanTitle title) ++ ".json"

/-- `searchCinemeta(title, type, year)` over explicit state. Returns the
    result, the new cache state, the unconsumed responses and whether a
    network call was issued. An exhausted response script behaves like a
    transport error (caught by the function's own `catch`: result `null`,
    nothing cached). -/
def searchCinemetaR (st : SearchState) (resps : List FetchResult)
    (ty : MediaType) (title : String) (year : Option Int) :
    Option Record × SearchState × List FetchResult × Bool :=
  let key := cacheKey ty title year
  match lookupAssoc st.searchCache key with
  | some v => (v, st, resps, false)
  | none =>
    match resps with
    | [] => (none, st, [], true)
    | r :: rest =>
      match r with
      | .httpError _ => (none, st, rest, true)
      | .transportError => (none, st, rest, true)
      | .ok metas =>
        match bestMatchOf metas year with
        | none =>
          (none, { st with searchCache := setAssoc st.searchCache key none },
           rest, true)
        | some best =>
          (some best,
           { searchCache := setAssoc st.searchCache key (some best)
             cinemetaCache := setAssoc st.cinemetaCache best.id best },
           rest, true)

/-! ## Inventory entries and the torrents cache (index.js lines 57-79) -/

structure TFile where
  id : Nat
  name : String
deriving Repr, DecidableEq

/-- A Torbox inventory entry as held in `torrentsCache`. `_imdbId` and
    `_parsed` are the engine's annotation fields; entries as fetched
    from the API carry `none` there. A missing `name` is modelled as
    `""` (falsy). -/
structure Torrent where
  id : Nat
  name : String
  size : Nat
  updated_at : Option TsVal
  created_at : Option TsVal
  files : Option (List TFile)
  _imdbId : Option String
  _parsed : Option Descriptor
deriving Repr, DecidableEq

/-- The caching side effect of `getTorboxTorrents`:
    `torrents.forEach(t => torrentsCache.set(String(t.id), t))`. -/
def refreshCache (cache : List (String × Torrent)) (ts : List Torrent) :
    List (String × Torrent) :=
  ts.foldl (fun c t => setAssoc c (toString t.id) t) cache

/-! ## Catalog assembly: `handleMediaCatalog` (index.js lines 363-458) -/

/-- `parseDate(t.updated_at) || parseDate(t.created_at) || new Date(0)`,
    as the `getTime()` of the resulting `Date` (`none` = `NaN`: a JS
    `Date` object is truthy even when Invalid, so an unparsable string
    does NOT fall through the `||`). -/
def recencyDate (t : Torrent) : Option Int :=
  match parseDate t.updated_at with
  | some d => d
  | none =>
    match parseDate t.created_at with
    | some d => d
    | none => some 0

/-- NaN-propagating subtraction of two `getTime()` values. -/
def subNaN : Option Int → Option Int → Option Int
  | some a, some b => some (a - b)
  | _, _ => none

/-- The sort comparator `dateB.getTime() - dateA.getTime()`, composed
    with the ECMAScript `SortCompare` rule that a `NaN` comparator
    result is treated as `+0`. -/
def sortCompare (a b : Torrent) : Int :=
  (subNaN (recencyDate b) (recencyDate a)).getD 0

/-- Stable comparator-driven sort modelling `Array.prototype.sort`
    (insertion of each element after the existing elements that compare
    less-or-equal, preserving the order of ties). -/
def jsSortInsert (x : Torrent) : List Torrent → List Torrent
  | [] => [x]
  | z :: zs => if sortCompare z x ≤ 0 then z :: jsSortInsert x zs else x :: z :: zs

def jsSort (l : List Torrent) : List Torrent :=
  l.foldl (fun acc x => jsSortInsert x acc) []

/-- `torrent.name || 'Sans nom'`. -/
def torrentDisplayName (t : Torrent) : String :=
  if t.name = "" then "Sans nom" else t.name

/-- The descriptor the catalog loop derives for a torrent. -/
def parsedOf (ptt : String → PttResult) (t : Torrent) : Descriptor :=
  parseTorrentName (ptt (torrentDisplayName t)) (torrentDisplayName t)

/-- Truthiness of the `_imdbId` annotation (`if (!torrent._imdbId)`). -/
def annotTruthy (t : Torrent) : Bool :=
  match t._imdbId with
  | some s => s != ""
  | none => false

/-- `torrent._imdbId = id; torrent._parsed = parsed`. -/
def annotate (t : Torrent) (rid : String) (d : Descriptor) : Torrent :=
  { t with _imdbId := some rid, _parsed := some d }

/-- `parsed.year ? String(parsed.year) : d`. -/
def yearOrElse (o : Option Int) (d : String) : String :=
  match o with
  | some y => if y = 0 then d else toString y
  | none => d

/-- One object of the `metas` array the catalog handler builds. -/
structure MetaItem where
  id : String
  type : MediaType
  name : String
  poster : Option String
  background : Option String
  description : Option String
  releaseInfo : String
  imdbRating : Option String
  _torboxId : Nat
  _quality : String
  _torrentName : String
deriving Repr, DecidableEq

/-- The meta pushed when Cinemeta found a record (index.js lines 408-421). -/
def mkCineMeta (ct : MediaType) (t : Torrent) (name : String)
    (parsed : Descriptor) (r : Record) : MetaItem :=
  let quality := jsOrStr parsed.quality (extractQuality name)
  { id := r.id
    type := ct
    name := r.name
    poster := r.poster
    background := r.background
    description := r.description
    releaseInfo := jsOrStr r.releaseInfo (yearOrElse parsed.year "")
    imdbRating := r.imdbRating
    _torboxId := t.id
    _quality := quality
    _torrentName := name }

/-- The fallback meta pushed when Cinemeta found nothing
    (index.js lines 432-442). -/
def mkFallbackMeta (ct : MediaType) (t : Torrent) (name : String)
    (parsed : Descriptor) : MetaItem :=
  let quality := jsOrStr parsed.quality (extractQuality name)
  { id := "tb:" ++ toString t.id
    type := ct
    name := parsed.title
    poster := some (generatePoster "🎬" (if quality = "" then "?" else quality) "2d4a3e")
    background := none
    description := some ("Release: " ++ name)
    releaseInfo := yearOrElse parsed.year quality
    imdbRating := none
    _torboxId := t.id
    _quality := quality
    _torrentName := name }

/-- The mutable state of one catalog-assembly pass: the two Cinemeta
    caches, the scripted search responses still unconsumed, the torrents
    cache, the `seenImdb` dedup set, the `metas` array, and a trace of
    how many inventory entries were fed through the parser. -/
structure CatalogSt where
  searchSt : SearchState
  resps : List FetchResult
  tcache : List (String × Torrent)
  seen : List String
  metas : List MetaItem
  parsedCount : Nat
deriving Repr, DecidableEq

/-- One iteration of the `for (const torrent of sorted)` loop of
    `handleMediaCatalog` (index.js lines 384-446): parse the name,
    filter by type, resolve on Cinemeta, and either emit a canonical
    meta (annotating the cache entry), emit a fallback meta, or skip. -/
def catalogStep (ptt : String → PttResult) (ct : MediaType) (t : Torrent)
    (st : CatalogSt) : CatalogSt :=
  let name := torrentDisplayName t
  let parsed := parsedOf ptt t
  if parsed.type ≠ ct then { st with parsedCount := st.parsedCount + 1 }
  else
    match searchCinemetaR st.searchSt st.resps parsed.type parsed.title parsed.year with
    | (some r, sst, rs, _) =>
      if r.id ∈ st.seen then
        { st with parsedCount := st.parsedCount + 1, searchSt := sst, resps := rs }
      else
        { searchSt := sst
          resps := rs
          tcache :=
            if annotTruthy t then st.tcache
            else setAssoc st.tcache (toString t.id) (annotate t r.id parsed)
          seen := st.seen ++ [r.id]
          metas := st.metas ++ [mkCineMeta ct t name parsed r]
          parsedCount := st.parsedCount + 1 }
    | (none, sst, rs, _) =>
      if ("tb:" ++ toString t.id) ∈ st.seen then
        { st with parsedCount := st.parsedCount + 1, searchSt := sst, resps := rs }
      else
        { st with
          parsedCount := st.parsedCount + 1
          searchSt := sst
          resps := rs
          seen := st.seen ++ ["tb:" ++ toString t.id]
          metas := st.metas ++ [mkFallbackMeta ct t name parsed] }

/-- The loop itself, with the `if (metas.length >= 20) break` check at
    the head of every iteration (index.js line 383). -/
def catalogLoop (ptt : String → PttResult) (ct : MediaType) :
    List Torrent → CatalogSt → CatalogSt
  | [], st => st
  | t :: rest, st =>
    if 20 ≤ st.metas.length then st
    else catalogLoop ptt ct rest (catalogStep ptt ct t st)

/-- `handleMediaCatalog(catalogType)`: pull the inventory (the fetch
    outcome is `fetchRes`; a throw is caught and yields `{ metas: [] }`
    with the caches untouched), cache the fresh entries, sort by recency
    and run the loop. -/
def handleMediaCatalog (ptt : String → PttResult) (ct : MediaType)
    (fetchRes : Except Unit (List Torrent)) (sst : SearchState)
    (resps : List FetchResult) (tcache : List (String × Torrent)) : CatalogSt :=
  match fetchRes with
  | .error _ =>
    { searchSt := sst, resps := resps, tcache := tcache
      seen := [], metas := [], parsedCount := 0 }
  | .ok torrents =>
    catalogLoop ptt ct (jsSort torrents)
      { searchSt := sst, resps := resps, tcache := refreshCache tcache torrents
        seen := [], metas := [], parsedCount := 0 }

/-! ## Spec-side recency key (for comparison with the code's comparator) -/

/-- Written from the claim's words, NOT from the source: the three-way
    rule (numeric > 1e12 ⇒ milliseconds, numeric otherwise ⇒ seconds,
    string ⇒ ISO parse) with `none` for an absent or unparsable value. -/
def specTsParse : Option TsVal → Option Int
  | none => none
  | some (.num n) => if n > 10 ^ 12 then some n else some (n * 1000)
  | some (.str _ p) => p

/-- Written from the claim's words: `updatedAt` under the three-way
    rule, falling back to `createdAt`, falling back to epoch zero,
    whenever a value is absent or unparsable. -/
def specRecencyKey (t : Torrent) : Int :=
  match specTsParse t.updated_at with
  | some k => k
  | none =>
    match specTsParse t.created_at with
    | some k => k
    | none => 0

/-- Timestamp values on which the code's comparator and the spec's rule
    agree: absent, a non-zero number, a non-empty parsable string, or
    the empty string with an unparsable ISO result. -/
def tsGoodB : Option TsVal → Bool
  | none => true
  | some (.num n) => n != 0
  | some (.str s p) =>
    (s == "" && p == none) || (s != "" && p != none)

/-! ## Stream resolution (index.js lines 196-224, 705-826) -/

/-- One stream object pushed by `generateStreamsForTorrent`. -/
structure StreamLink where
  name : String
  title : String
  url : String
deriving Repr, DecidableEq

def videoExtensions : List String :=
  [".mkv", ".mp4", ".avi", ".mov", ".wmv", ".webm"]

def isVideoFile (f : TFile) : Bool :=
  videoExtensions.any (fun ext => strEndsWith (lowerStr f.name) ext)

/-- The query parameters `getTorboxStreamLink(torrentId, fileId)` puts
    into the `requestdl` URL: `file_id` is appended only under
    `if (fileId)`, so a file id of `0` (falsy) is dropped. -/
def requestParams (torrentId : Nat) (fileId : Option Nat) : Nat × Option Nat :=
  (torrentId,
   match fileId with
   | some f => if f = 0 then none else some f
   | none => none)

/-- `generateStreamsForTorrent(torrent)`. The link-issuing endpoint is
    the oracle `lo` over the final request parameters (`none` models a
    thrown error, which the per-file `catch` swallows). Besides the
    streams, the list of link requests actually issued is returned. -/
def generateStreamsForTorrent (lo : Nat × Option Nat → Option String)
    (t : Torrent) : List StreamLink × List (Nat × Option Nat) :=
  let whole : List StreamLink × List (Nat × Option Nat) :=
    let req := requestParams t.id none
    match lo req with
    | some url =>
      let q := extractQuality t.name
      ([{ name := "⚡ Torbox"
          title := (if q = "" then "" else q ++ " • ") ++ t.name
          url := url }], [req])
    | none => ([], [req])
  match t.files with
  | some files =>
    if 0 < files.length then
      files.foldl
        (fun acc f =>
          if isVideoFile f then
            let req := requestParams t.id (some f.id)
            match lo req with
            | some url =>
              let q := extractQuality f.name
              (acc.1 ++ [{ name := "⚡ Torbox"
                           title := (if q = "" then "" else q ++ " • ") ++ f.name
                           url := url }],
               acc.2 ++ [req])
            | none => (acc.1, acc.2 ++ [req])
          else acc)
        ([], [])
    else whole
  | none => whole

/-- First pass of the `tt` branch: scan `torrentsCache` for an entry
    already annotated with this IMDB id (index.js lines 789-794). -/
def findAnnotated : List (String × Torrent) → String → Option Torrent
  | [], _ => none
  | (_, t) :: rest, id =>
    if t._imdbId = some id then some t else findAnnotated rest id

/-- Second pass of the `tt` branch: re-parse and re-resolve each cached
    entry until one matches, annotating it on success (index.js lines
    797-807). Returns the found torrent, the evolved search state and
    responses, and the torrents cache (updated through the aliasing of
    the mutated entry). -/
def findByResolveAux (ptt : String → PttResult) (id : String) :
    List (String × Torrent) → SearchState → List FetchResult →
    List (String × Torrent) →
    Option Torrent × SearchState × List FetchResult × List (String × Torrent)
  | [], sst, rs, tc => (none, sst, rs, tc)
  | (k, t) :: rest, sst, rs, tc =>
    let parsed := parseTorrentName (ptt t.name) t.name
    match searchCinemetaR sst rs parsed.type parsed.title parsed.year with
    | (some r, sst', rs', _) =>
      if r.id = id then
        let t' := { t with _imdbId := some id }
        (some t', sst', rs', setAssoc tc k t')
      else findByResolveAux ptt id rest sst' rs' tc
    | (none, sst', rs', _) => findByResolveAux ptt id rest sst' rs' tc

/-- Result of one stream-handler invocation: the streams returned to the
    client plus the evolved process-wide state. -/
structure StreamOut where
  streams : List StreamLink
  searchSt : SearchState
  resps : List FetchResult
  tcache : List (String × Torrent)
deriving Repr, DecidableEq

/-- The stream handler (index.js lines 763-826). `fetchRes` is the
    outcome of `getTorboxTorrents()` wherever the branch reaches it; a
    throw is caught by the handler's `catch` and yields `{ streams: [] }`. -/
def defineStreamHandler (ptt : String → PttResult)
    (lo : Nat × Option Nat → Option String)
    (fetchRes : Except Unit (List Torrent)) (sst : SearchState)
    (rs : List FetchResult) (tc : List (String × Torrent))
    (ty id : String) : StreamOut :=
  if ty = "movie" ∨ ty = "series" ∨ ty = "other" then
    if strBeginsWith id "tb:" then
      let tid := strDropChars id 3
      match lookupAssoc tc tid with
      | some t => ⟨(generateStreamsForTorrent lo t).1, sst, rs, tc⟩
      | none =>
        match fetchRes with
        | .error _ => ⟨[], sst, rs, tc⟩
        | .ok ts =>
          let tc1 := refreshCache tc ts
          match lookupAssoc tc1 tid with
          | some t => ⟨(generateStreamsForTorrent lo t).1, sst, rs, tc1⟩
          | none => ⟨[], sst, rs, tc1⟩
    else if strBeginsWith id "tt" then
      match fetchRes with
      | .error _ => ⟨[], sst, rs, tc⟩
      | .ok ts =>
        let tc1 := refreshCache tc ts
        match findAnnotated tc1 id with
        | some t => ⟨(generateStreamsForTorrent lo t).1, sst, rs, tc1⟩
        | none =>
          match findByResolveAux ptt id tc1 sst rs tc1 with
          | (some t, sst', rs', tc2) =>
            ⟨(generateStreamsForTorrent lo t).1, sst', rs', tc2⟩
          | (none, sst', rs', tc2) => ⟨[], sst', rs', tc2⟩
    else ⟨[], sst, rs, tc⟩
  else ⟨[], sst, rs, tc⟩

/-! ## Lemmas about the cache primitives -/

theorem lookupAssoc_setAssoc_self {α : Type} (l : List (String × α)) (k : String) (v : α) :
    lookupAssoc (setAssoc l k v) k = some v := by
  induction l with
  | nil => simp [setAssoc, lookupAssoc]
  | cons p rest ih =>
    obtain ⟨k', v'⟩ := p
    by_cases h : k' = k
    · simp [setAssoc, lookupAssoc, h]
    · simp [setAssoc, lookupAssoc, h, ih]

theorem lookupAssoc_setAssoc_ne {α : Type} (l : List (String × α)) (k k' : String)
    (v : α) (h : k' ≠ k) :
    lookupAssoc (setAssoc l k v) k' = lookupAssoc l k' := by
  have hk : ¬ k = k' := fun h' => h h'.symm
  induction l with
  | nil => simp [setAssoc, lookupAssoc, hk]
  | cons p rest ih =>
    obtain ⟨k0, v0⟩ := p
    by_cases h0 : k0 = k
    · subst h0
      simp [setAssoc, lookupAssoc, hk]
    · simp [setAssoc, lookupAssoc, h0, ih]

theorem refreshCache_cons (c : List (String × Torrent)) (t : Torrent)
    (rest : List Torrent) :
    refreshCache c (t :: rest) = refreshCache (setAssoc c (toString t.id) t) rest := rfl

theorem refreshCache_lookup_notin (c : List (String × Torrent))
    (ts : List Torrent) (k : String) (h : ∀ t ∈ ts, toString t.id ≠ k) :
    lookupAssoc (refreshCache c ts) k = lookupAssoc c k := by
  induction ts generalizing c with
  | nil => rfl
  | cons t rest ih =>
    rw [refreshCache_cons, ih _ (fun u hu => h u (List.mem_cons_of_mem _ hu)),
      lookupAssoc_setAssoc_ne _ _ _ _ (fun h' => h t (List.mem_cons_self _ _) h'.symm)]

theorem refreshCache_lookup_mem (c : List (String × Torrent))
    (ts : List Torrent) (t : Torrent) (hmem : t ∈ ts)
    (huniq : ∀ u ∈ ts, toString u.id = toString t.id → u = t) :
    lookupAssoc (refreshCache c ts) (toString t.id) = some t := by
  induction ts generalizing c with
  | nil => cases hmem
  | cons u rest ih =>
    by_cases hr : t ∈ rest
    · exact ih _ hr (fun v hv hveq => huniq v (List.mem_cons_of_mem _ hv) hveq)
    · have ht : t = u := by
        rcases List.mem_cons.mp hmem with h | h
        · exact h
        · exact absurd h hr
      subst ht
      have hnone : ∀ v ∈ rest, toString v.id ≠ toString t.id := by
        intro v hv hveq
        exact hr (huniq v (List.mem_cons_of_mem _ hv) hveq ▸ hv)
      rw [refreshCache_cons, refreshCache_lookup_notin _ _ _ hnone,
        lookupAssoc_setAssoc_self]

/-! ## Lemmas about the catalog loop -/

theorem catalogLoop_stop (ptt : String → PttResult) (ct : MediaType)
    (l : List Torrent) (st : CatalogSt) (h : 20 ≤ st.metas.length) :
    catalogLoop ptt ct l st = st := by
  cases l <;> simp [catalogLoop, h]

theorem catalogLoop_cons (ptt : String → PttResult) (ct : MediaType)
    (t : Torrent) (rest : List Torrent) (st : CatalogSt)
    (h : ¬ 20 ≤ st.metas.length) :
    catalogLoop ptt ct (t :: rest) st =
      catalogLoop ptt ct rest (catalogStep ptt ct t st) := by
  simp [catalogLoop, h]

theorem catalogLoop_append (ptt : String → PttResult) (ct : MediaType)
    (l1 l2 : List Torrent) (st : CatalogSt) :
    catalogLoop ptt ct (l1 ++ l2) st =
      catalogLoop ptt ct l2 (catalogLoop ptt ct l1 st) := by
  induction l1 generalizing st with
  | nil => rfl
  | cons t rest ih =>
    by_cases h : 20 ≤ st.metas.length
    · rw [catalogLoop_stop ptt ct _ st h, catalogLoop_stop ptt ct _ st h,
        catalogLoop_stop ptt ct _ st h]
    · rw [List.cons_append, catalogLoop_cons ptt ct _ _ _ h,
        catalogLoop_cons ptt ct _ _ _ h, ih]

/-- What one loop iteration does to `metas` and `seen`: either both are
    untouched, or exactly one meta is emitted whose id is fresh in
    `seenImdb`, is recorded there, and whose source name parses to the
    requested kind. -/
theorem catalogStep_emit (ptt : String → PttResult) (ct : MediaType)
    (t : Torrent) (st : CatalogSt) :
    ((catalogStep ptt ct t st).metas = st.metas ∧
      (catalogStep ptt ct t st).seen = st.seen) ∨
    ∃ m : MetaItem,
      (catalogStep ptt ct t st).metas = st.metas ++ [m] ∧
      (catalogStep ptt ct t st).seen = st.seen ++ [m.id] ∧
      m.id ∉ st.seen ∧
      (parseTorrentName (ptt m._torrentName) m._torrentName).type = ct := by
  unfold catalogStep
  by_cases hty : (parsedOf ptt t).type ≠ ct
  · simp [hty]
  · simp only [hty, if_false, ite_false, if_neg hty]
    rcases hs : searchCinemetaR st.searchSt st.resps (parsedOf ptt t).type
        (parsedOf ptt t).title (parsedOf ptt t).year with ⟨res, sst, rs, b⟩
    cases res with
    | some r =>
      by_cases hseen : r.id ∈ st.seen
      · simp [hseen]
      · right
        refine ⟨mkCineMeta ct t (torrentDisplayName t) (parsedOf ptt t) r,
          by simp [hseen], by simp [hseen, mkCineMeta], by simpa [mkCineMeta],
          ?_⟩
        have : parseTorrentName (ptt (torrentDisplayName t)) (torrentDisplayName t) =
            parsedOf ptt t := rfl
        simp only [mkCineMeta]
        simpa [this] using not_not.mp (fun hc => hc (fun h => hty h))
    | none =>
      by_cases hseen : ("tb:" ++ toString t.id) ∈ st.seen
      · simp [hseen]
      · right
        refine ⟨mkFallbackMeta ct t (torrentDisplayName t) (parsedOf ptt t),
          by simp [hseen], by simp [hseen, mkFallbackMeta],
          by simpa [mkFallbackMeta], ?_⟩
        simp only [mkFallbackMeta]
        simpa using not_not.mp (fun hc => hc (fun h => hty h))

/-- The loop invariant behind the dedup, cap and kind-filter claims. -/
theorem catalogLoop_inv (ptt : String → PttResult) (ct : MediaType)
    (l : List Torrent) (st : CatalogSt)
    (hsub : ∀ m ∈ st.metas, m.id ∈ st.seen)
    (hnod : (st.metas.map (fun m => m.id)).Nodup)
    (hlen : st.metas.length ≤ 20)
    (hkind : ∀ m ∈ st.metas,
      (parseTorrentName (ptt m._torrentName) m._torrentName).type = ct) :
    (((catalogLoop ptt ct l st).metas.map (fun m => m.id)).Nodup) ∧
    (catalogLoop ptt ct l st).metas.length ≤ 20 ∧
    (∀ m ∈ (catalogLoop ptt ct l st).metas,
      (parseTorrentName (ptt m._torrentName) m._torrentName).type = ct) := by
  induction l generalizing st with
  | nil => exact ⟨hnod, hlen, hkind⟩
  | cons t rest ih =>
    by_cases h20 : 20 ≤ st.metas.length
    · rw [catalogLoop_stop ptt ct _ st h20]
      exact ⟨hnod, hlen, hkind⟩
    · rw [catalogLoop_cons ptt ct _ _ _ h20]
      rcases catalogStep_emit ptt ct t st with ⟨hm, hsn⟩ | ⟨m, hm, hsn, hfresh, hk⟩
      · exact ih _ (by rw [hm, hsn]; exact hsub) (by rw [hm]; exact hnod)
          (by rw [hm]; exact hlen) (by rw [hm]; exact hkind)
      · refine ih _ ?_ ?_ ?_ ?_
        · rw [hm, hsn]
          intro x hx
          rcases List.mem_append.mp hx with hx | hx
          · exact List.mem_append.mpr (Or.inl (hsub x hx))
          · simp only [List.mem_singleton] at hx
            subst hx
            exact List.mem_append.mpr (Or.inr (List.mem_singleton.mpr rfl))
        · rw [hm]
          simp only [List.map_append, List.map_cons, List.map_nil]
          refine List.Nodup.append hnod (List.nodup_singleton _) ?_
          intro x hx hx'
          simp only [List.mem_singleton] at hx'
          subst hx'
          rcases List.mem_map.mp hx with ⟨m', hm', hid⟩
          exact hfresh (hid ▸ hsub m' hm')
        · rw [hm]
          simp only [List.length_append, List.length_singleton]
          omega
        · rw [hm]
          intro x hx
          rcases List.mem_append.mp hx with hx | hx
          · exact hkind x hx
          · simp only [List.mem_singleton] at hx
            subst hx
            exact hk

/-! ## Repeated searches (for the caching claims) -/

/-- `n` repeated identical `searchCinemeta` calls threading the caches
    and the response script, counting how many network calls they issue. -/
def repeatSearch (ty : MediaType) (title : String) (year : Option Int) :
    Nat → SearchState → List FetchResult → SearchState × List FetchResult × Nat
  | 0, st, rs => (st, rs, 0)
  | n + 1, st, rs =>
    match searchCinemetaR st rs ty title year with
    | (_, st', rs', called) =>
      match repeatSearch ty title year n st' rs' with
      | (stf, rsf, c) => (stf, rsf, (if called then 1 else 0) + c)

theorem searchCinemetaR_hit (st : SearchState) (rs : List FetchResult)
    (ty : MediaType) (title : String) (year : Option Int) (v : Option Record)
    (h : lookupAssoc st.searchCache (cacheKey ty title year) = some v) :
    searchCinemetaR st rs ty title year = (v, st, rs, false) := by
  simp [searchCinemetaR, h]

theorem repeatSearch_hit (ty : MediaType) (title : String) (year : Option Int)
    (n : Nat) (st : SearchState) (rs : List FetchResult) (v : Option Record)
    (h : lookupAssoc st.searchCache (cacheKey ty title year) = some v) :
    repeatSearch ty title year n st rs = (st, rs, 0) := by
  induction n with
  | zero => rfl
  | succ n ih =>
    simp [repeatSearch, searchCinemetaR_hit st rs ty title year v h, ih]

theorem searchCinemetaR_ok_caches (st : SearchState) (rest : List FetchResult)
    (ty : MediaType) (title : String) (year : Option Int) (ms : List Record)
    (h : lookupAssoc st.searchCache (cacheKey ty title year) = none) :
    lookupAssoc
        ((searchCinemetaR st (FetchResult.ok ms :: rest) ty title year).2.1).searchCache
        (cacheKey ty title year) =
      some ((searchCinemetaR st (FetchResult.ok ms :: rest) ty title year).1) := by
  simp only [searchCinemetaR, h]
  rcases hb : bestMatchOf ms year with _ | best <;>
    simp [hb, lookupAssoc_setAssoc_self]

/-! ## Claim C1: annotation survival across inventory refreshes -/

/-- An already-annotated cached entry and the same entry as freshly
    fetched from the API (annotation fields unset). -/
def c1CachedEntry : Torrent :=
  { id := 1, name := "Movie.2021.1080p", size := 7, updated_at := none
    created_at := none, files := none, _imdbId := some "tt0000001"
    _parsed := none }

def c1FreshEntry : Torrent :=
  { id := 1, name := "Movie.2021.1080p", size := 7, updated_at := none
    created_at := none, files := none, _imdbId := none, _parsed := none }

/-- Claim C1 is false on the code: `getTorboxTorrents` re-caches each
    fetched entry wholesale (`torrentsCache.set(String(t.id), t)`), so a
    recurring id's previously set `canonicalId` annotation (`_imdbId`)
    is gone after the refresh. -/
theorem C1_counterexample :
    lookupAssoc [("1", c1CachedEntry)] "1" = some c1CachedEntry ∧
    c1CachedEntry._imdbId = some "tt0000001" ∧
    lookupAssoc (refreshCache [("1", c1CachedEntry)] [c1FreshEntry]) "1" =
      some c1FreshEntry ∧
    c1FreshEntry._imdbId = none :=
  ⟨rfl, rfl, rfl, rfl⟩

/-- Claim C1 (amended): an inventory refresh replaces the cached value
    of every id occurring in the new listing with the freshly fetched
    entry — discarding any previously set annotations for recurring
    ids — while entries whose id is absent from the new listing (and
    hence their annotations) are left untouched. -/
theorem C1_theorem (cache : List (String × Torrent)) (ts : List Torrent)
    (k : String) (t : Torrent) :
    ((∀ u ∈ ts, toString u.id ≠ k) →
      lookupAssoc (refreshCache cache ts) k = lookupAssoc cache k) ∧
    (t ∈ ts → (∀ u ∈ ts, toString u.id = toString t.id → u = t) →
      lookupAssoc (refreshCache cache ts) (toString t.id) = some t) :=
  ⟨refreshCache_lookup_notin cache ts k, refreshCache_lookup_mem cache ts t⟩

/-- Witness: `C1_theorem` applied at a concrete cache and listing. -/
theorem C1_witness :
    lookupAssoc (refreshCache [("9", c1CachedEntry)] [c1FreshEntry]) "9" =
      lookupAssoc [("9", c1CachedEntry)] "9" ∧
    lookupAssoc (refreshCache [("9", c1CachedEntry)] [c1FreshEntry])
      (toString c1FreshEntry.id) = some c1FreshEntry :=
  ⟨(C1_theorem [("9", c1CachedEntry)] [c1FreshEntry] "9" c1FreshEntry).1
      (by decide),
   (C1_theorem [("9", c1CachedEntry)] [c1FreshEntry] "9" c1FreshEntry).2
      (by decide) (by decide)⟩

/-! ## Claim C2: the recency sort key -/

/-- A tokenizer stub for concrete runs: the raw name back as title,
    nothing else detected (kind movie). -/
def pttTitleOnly : String → PttResult :=
  fun n => ⟨some n, none, none, none, none, none⟩

/-- `updated_at` an unparsable non-empty string, `created_at` 100
    (epoch-seconds): the claim's key is 100000. -/
def c2A : Torrent :=
  ⟨1, "A", 0, some (.str "zzz" none), some (.num 100), none, none, none⟩

/-- `updated_at` 1 (epoch-seconds): the claim's key is 1000. -/
def c2B : Torrent :=
  ⟨2, "B", 0, some (.num 1), none, none, none, none⟩

/-- Claim C2 is false on the code: with `c2A` (spec key 100000) and
    `c2B` (spec key 1000) in the inventory, the listing shows `c2B`
    first — NOT descending by the claim's key. The unparsable
    `updated_at` string of `c2A` produces an Invalid Date, which is
    truthy, so `created_at` is never consulted and the `NaN` comparison
    is treated as a tie keeping input order. -/
theorem C2_counterexample :
    ((handleMediaCatalog pttTitleOnly .movie (.ok [c2B, c2A])
        ⟨[], []⟩ [] []).metas.map (fun m => m._torboxId)) = [2, 1] ∧
    specRecencyKey c2A > specRecencyKey c2B := by
  exact ⟨rfl, by decide⟩

theorem parseDate_good (v : Option TsVal) (h : tsGoodB v = true) :
    parseDate v = (specTsParse v).map Option.some := by
  match v with
  | none => rfl
  | some (.num n) =>
    simp only [tsGoodB, bne_iff_ne, ne_eq] at h
    have ht : tsTruthy (TsVal.num n) = true := by simp [tsTruthy, h]
    simp only [parseDate, specTsParse, ht, if_true]
    split_ifs <;> rfl
  | some (.str s p) =>
    simp only [tsGoodB, Bool.or_eq_true, Bool.and_eq_true, beq_iff_eq,
      bne_iff_ne, ne_eq] at h
    rcases h with ⟨hs, hp⟩ | ⟨hs, hp⟩
    · subst hs
      subst hp
      rfl
    · obtain ⟨x, rfl⟩ := Option.ne_none_iff_exists'.mp hp
      simp [parseDate, specTsParse, tsTruthy, hs]

theorem recencyDate_good (t : Torrent) (h1 : tsGoodB t.updated_at = true)
    (h2 : tsGoodB t.created_at = true) :
    recencyDate t = some (specRecencyKey t) := by
  unfold recencyDate specRecencyKey
  rw [parseDate_good _ h1, parseDate_good _ h2]
  cases specTsParse t.updated_at <;> cases specTsParse t.created_at <;> simp

/-- Claim C2 (amended): on timestamp values that are absent, numeric
    non-zero, or strings whose parsability matches their emptiness, the
    code's comparator is exactly descending order of the claim's
    three-way key; an unparsable non-empty string instead yields an
    Invalid Date with no fallback (see `C2_counterexample`). -/
theorem C2_theorem (a b : Torrent)
    (ha1 : tsGoodB a.updated_at = true) (ha2 : tsGoodB a.created_at = true)
    (hb1 : tsGoodB b.updated_at = true) (hb2 : tsGoodB b.created_at = true) :
    recencyDate a = some (specRecencyKey a) ∧
    recencyDate b = some (specRecencyKey b) ∧
    sortCompare a b = specRecencyKey b - specRecencyKey a := by
  have h1 := recencyDate_good a ha1 ha2
  have h2 := recencyDate_good b hb1 hb2
  exact ⟨h1, h2, by simp [sortCompare, h1, h2, subNaN]⟩

def c2WitA : Torrent :=
  ⟨1, "A", 0, some (.num 5), none, none, none, none⟩

def c2WitB : Torrent :=
  ⟨2, "B", 0, none, some (.str "2021-01-01" (some 1609459200000)), none, none, none⟩

/-- Witness: `C2_theorem` applied at concrete well-behaved entries. -/
theorem C2_witness :
    sortCompare c2WitA c2WitB = specRecencyKey c2WitB - specRecencyKey c2WitA :=
  (C2_theorem c2WitA c2WitB (by decide) (by decide) (by decide) (by decide)).2.2

/-! ## Claim C7: the parse contract -/

/-- The tokenizer's result on the empty string: no fields extracted
    (its title handler yields the empty remainder). -/
def pttEmptyResult : PttResult := ⟨some "", none, none, none, none, none⟩

/-- Claim C7 is false as stated: on the empty input string the returned
    title is the empty string (the `parsed.title || name` fallback is
    itself empty), so `parse` does not return a non-empty title for
    EVERY input string. -/
theorem C7_counterexample :
    (parseTorrentName pttEmptyResult "").title = "" :=
  rfl

theorem jsNum_eq_none (o : Option Int) : jsNum o = none ↔ intTruthy o = false := by
  cases o with
  | none => simp [jsNum, intTruthy]
  | some n => by_cases h : n = 0 <;> simp [jsNum, intTruthy, h]

/-- Claim C7 (amended): for every non-empty input string the descriptor
    title is non-empty (falling back to the raw name whenever the
    tokenizer extracted none), the kind is series exactly when a season
    or an episode was detected, and `parse` is total. -/
theorem C7_theorem (p : PttResult) (name : String) (h : name ≠ "") :
    (parseTorrentName p name).title ≠ "" ∧
    ((parseTorrentName p name).type = .series ↔
      ((parseTorrentName p name).season ≠ none ∨
       (parseTorrentName p name).episode ≠ none)) ∧
    ((p.title = none ∨ p.title = some "") →
      (parseTorrentName p name).title = name) := by
  refine ⟨?_, ?_, ?_⟩
  · simp only [parseTorrentName, jsOrStr]
    cases p.title with
    | none => exact h
    | some s =>
      by_cases hs : s = ""
      · simpa [hs] using h
      · simp [hs]
  · simp only [parseTorrentName, ne_eq, jsNum_eq_none]
    by_cases hs : intTruthy p.season = true <;>
      by_cases he : intTruthy p.episode = true <;>
        simp [hs, he]
  · intro ht
    rcases ht with ht | ht <;> simp [parseTorrentName, jsOrStr, ht]

/-- Witness: `C7_theorem` applied at a concrete parse. -/
theorem C7_witness :
    (parseTorrentName ⟨some "Show Name", some 2021, some 2, some 5, some "720p", none⟩
        "Show.Name.S02E05.720p.mkv").type = .series ↔
      ((parseTorrentName ⟨some "Show Name", some 2021, some 2, some 5, some "720p", none⟩
          "Show.Name.S02E05.720p.mkv").season ≠ none ∨
       (parseTorrentName ⟨some "Show Name", some 2021, some 2, some 5, some "720p", none⟩
          "Show.Name.S02E05.720p.mkv").episode ≠ none) :=
  (C7_theorem _ "Show.Name.S02E05.720p.mkv" (by decide)).2.1

/-! ## Claim C8: per-file link requests -/

/-- A located inventory entry listing a video file with id 0, a
    non-video file, and a video file with id 2. -/
def c8Torrent : Torrent :=
  ⟨9, "Movie 1080p", 0, none, none,
   some [⟨0, "a.mkv"⟩, ⟨1, "b.txt"⟩, ⟨2, "c.MP4"⟩], none, none⟩

/-- Claim C8 meets a code bug: one link request is issued per
    video-extension file (the `.txt` file is skipped), but the request
    for the file with id 0 carries NO file id — `getTorboxStreamLink`
    appends `file_id` only under the truthiness test `if (fileId)`,
    which drops the legitimate id 0 — while the spec requires both the
    entry id and the file id to be passed for every matching file. -/
theorem C8_theorem :
    (generateStreamsForTorrent (fun _ => some "http://u") c8Torrent).2 =
      [(9, none), (9, some 2)] ∧
    requestParams 9 (some 0) = (9, none) ∧
    requestParams 9 (some 2) = (9, some 2) :=
  ⟨rfl, rfl, rfl⟩

/-! ## Claim C5: at most one external search per triple -/

/-- Claim C5: a cache hit returns the cached value (positive or
    negative) with no network call; a completed response caches the call
    result under the triple's key; and over any number of repeated
    identical calls whose issued call (if any) receives a completed
    response, at most one network call happens. -/
theorem C5_theorem (ty : MediaType) (title : String) (year : Option Int)
    (st : SearchState) (rs : List FetchResult) :
    (∀ v, lookupAssoc st.searchCache (cacheKey ty title year) = some v →
      searchCinemetaR st rs ty title year = (v, st, rs, false)) ∧
    (∀ ms rest, rs = FetchResult.ok ms :: rest →
      lookupAssoc st.searchCache (cacheKey ty title year) = none →
      lookupAssoc ((searchCinemetaR st rs ty title year).2.1).searchCache
          (cacheKey ty title year) =
        some ((searchCinemetaR st rs ty title year).1)) ∧
    (∀ n, (lookupAssoc st.searchCache (cacheKey ty title year) = none →
        ∃ ms rest, rs = FetchResult.ok ms :: rest) →
      (repeatSearch ty title year n st rs).2.2 ≤ 1) := by
  refine ⟨fun v h => searchCinemetaR_hit st rs ty title year v h,
    fun ms rest hrs h => by
      subst hrs
      exact searchCinemetaR_ok_caches st rest ty title year ms h,
    fun n hok => ?_⟩
  cases n with
  | zero => simp [repeatSearch]
  | succ n =>
    rcases hkey : lookupAssoc st.searchCache (cacheKey ty title year) with _ | v
    · obtain ⟨ms, rest, rfl⟩ := hok hkey
      have hcached := searchCinemetaR_ok_caches st rest ty title year ms hkey
      simp only [repeatSearch]
      rcases hc : searchCinemetaR st (FetchResult.ok ms :: rest) ty title year with
        ⟨res, st', rs', called⟩
      have : lookupAssoc st'.searchCache (cacheKey ty title year) = some res := by
        rw [hc] at hcached
        exact hcached
      rw [repeatSearch_hit ty title year n st' rs' res this]
      split <;> simp
    · rw [repeatSearch_hit ty title year (n + 1) st rs v hkey]
      simp

/-- Witness: `C5_theorem` applied to three identical calls whose first
    receives a completed empty response. -/
theorem C5_witness :
    (repeatSearch MediaType.movie "T" none 3 ⟨[], []⟩ [FetchResult.ok []]).2.2 ≤ 1 :=
  (C5_theorem MediaType.movie "T" none ⟨[], []⟩ [FetchResult.ok []]).2.2 3
    (fun _ => ⟨[], [], rfl⟩)

/-! ## Claim C10: failed searches are not cached -/

/-- Claim C10: from a state where the triple is uncached, an HTTP-error
    or transport-error response leaves the caches untouched and returns
    absence, every call from that state issues a network call (so a
    later identical call hits the network again), and a call can only
    populate the key when its response was a completed one. -/
theorem C10_theorem (ty : MediaType) (title : String) (year : Option Int)
    (st : SearchState)
    (hkey : lookupAssoc st.searchCache (cacheKey ty title year) = none) :
    (∀ c rest, searchCinemetaR st (FetchResult.httpError c :: rest) ty title year =
      (none, st, rest, true)) ∧
    (∀ rest, searchCinemetaR st (FetchResult.transportError :: rest) ty title year =
      (none, st, rest, true)) ∧
    (∀ rs, (searchCinemetaR st rs ty title year).2.2.2 = true) ∧
    (∀ r rest,
      lookupAssoc ((searchCinemetaR st (r :: rest) ty title year).2.1).searchCache
        (cacheKey ty title year) ≠ none →
      ∃ ms, r = FetchResult.ok ms) := by
  refine ⟨fun c rest => by simp [searchCinemetaR, hkey],
    fun rest => by simp [searchCinemetaR, hkey], fun rs => ?_, fun r rest h => ?_⟩
  · cases rs with
    | nil => simp [searchCinemetaR, hkey]
    | cons r rest =>
      cases r with
      | httpError c => simp [searchCinemetaR, hkey]
      | transportError => simp [searchCinemetaR, hkey]
      | ok ms =>
        simp only [searchCinemetaR, hkey]
        rcases hb : bestMatchOf ms year with _ | best <;> simp [hb]
  · cases r with
    | httpError c =>
      simp only [searchCinemetaR, hkey] at h
      exact absurd rfl h
    | transportError =>
      simp only [searchCinemetaR, hkey] at h
      exact absurd rfl h
    | ok ms => exact ⟨ms, rfl⟩

/-- Witness: `C10_theorem` applied at a concrete failed call. -/
theorem C10_witness :
    searchCinemetaR ⟨[], []⟩ [FetchResult.httpError 500] MediaType.movie "T" none =
      (none, ⟨[], []⟩, [], true) :=
  (C10_theorem MediaType.movie "T" none ⟨[], []⟩ rfl).1 500 []

/-! ## Claim C3: failure semantics of one catalog pass -/

/-- A plain movie entry whose resolution will fail. -/
def c3Torrent : Torrent := ⟨3, "C", 0, none, none, none, none, none⟩

/-- Claim C3 is false on the code: when the single entry's resolution
    fails (HTTP 500 from the search endpoint), the entry is NOT skipped —
    the failure is absorbed inside `searchCinemeta` (returning `null`)
    and the entry is emitted as a fallback catalog entry `tb:3`. -/
theorem C3_counterexample :
    ((handleMediaCatalog pttTitleOnly .movie (.ok [c3Torrent]) ⟨[], []⟩
        [FetchResult.httpError 500] []).metas.map (fun m => m.id)) = ["tb:3"] :=
  rfl

/-- Claim C3 (amended): a whole-operation failure (the inventory pull
    throwing) is caught and yields an empty listing with the caches
    untouched; a resolution failure for a single entry is caught inside
    the metadata resolver and surfaces as absence, so the entry is
    emitted as a fallback entry — not skipped — and the pass continues
    with the remaining entries. -/
theorem C3_theorem (ptt : String → PttResult) (ct : MediaType)
    (t : Torrent) (rest : List Torrent) (st : CatalogSt) (c : Nat)
    (rs' : List FetchResult)
    (hlen : ¬ 20 ≤ st.metas.length)
    (hty : (parsedOf ptt t).type = ct)
    (hkey : lookupAssoc st.searchSt.searchCache
      (cacheKey (parsedOf ptt t).type (parsedOf ptt t).title
        (parsedOf ptt t).year) = none)
    (hrs : st.resps = FetchResult.httpError c :: rs')
    (hseen : ("tb:" ++ toString t.id) ∉ st.seen) :
    (∀ (sst : SearchState) (resps : List FetchResult)
        (tc : List (String × Torrent)) (e : Unit),
      handleMediaCatalog ptt ct (.error e) sst resps tc =
        { searchSt := sst, resps := resps, tcache := tc
          seen := [], metas := [], parsedCount := 0 }) ∧
    catalogLoop ptt ct (t :: rest) st =
      catalogLoop ptt ct rest
        { st with
          parsedCount := st.parsedCount + 1
          resps := rs'
          seen := st.seen ++ ["tb:" ++ toString t.id]
          metas := st.metas ++
            [mkFallbackMeta ct t (torrentDisplayName t) (parsedOf ptt t)] } := by
  refine ⟨fun sst resps tc e => rfl, ?_⟩
  have hsearch : searchCinemetaR st.searchSt st.resps (parsedOf ptt t).type
      (parsedOf ptt t).title (parsedOf ptt t).year =
      (none, st.searchSt, rs', true) := by
    rw [hrs]
    simp [searchCinemetaR, hkey]
  have hstep : catalogStep ptt ct t st =
      { st with
        parsedCount := st.parsedCount + 1
        resps := rs'
        seen := st.seen ++ ["tb:" ++ toString t.id]
        metas := st.metas ++
          [mkFallbackMeta ct t (torrentDisplayName t) (parsedOf ptt t)] } := by
    unfold catalogStep
    rw [if_neg (by simp [hty]), hsearch]
    simp [hseen]
  rw [catalogLoop_cons ptt ct t rest st hlen, hstep]

/-- Witness: `C3_theorem` applied at a concrete failing entry. -/
theorem C3_witness :
    catalogLoop pttTitleOnly .movie (c3Torrent :: [])
        ⟨⟨[], []⟩, [FetchResult.httpError 500], [], [], [], 0⟩ =
      catalogLoop pttTitleOnly .movie []
        { (⟨⟨[], []⟩, [FetchResult.httpError 500], [], [], [], 0⟩ : CatalogSt) with
          parsedCount := 0 + 1
          resps := []
          seen := [] ++ ["tb:" ++ toString c3Torrent.id]
          metas := [] ++ [mkFallbackMeta .movie c3Torrent
            (torrentDisplayName c3Torrent) (parsedOf pttTitleOnly c3Torrent)] } :=
  (C3_theorem pttTitleOnly .movie c3Torrent []
    ⟨⟨[], []⟩, [FetchResult.httpError 500], [], [], [], 0⟩ 500 []
    (by decide) (by decide) rfl rfl (by decide)).2

/-! ## Claim C4: canonical-id uniqueness and dedup -/

theorem jsSort_pair (a b : Torrent) :
    jsSort [a, b] = [a, b] ∨ jsSort [a, b] = [b, a] := by
  by_cases h : sortCompare a b ≤ 0
  · left
    simp [jsSort, jsSortInsert, h]
  · right
    simp [jsSort, jsSortInsert, h]

theorem catalogStep_hit_emit (ptt : String → PttResult) (ct : MediaType)
    (t : Torrent) (st : CatalogSt) (r : Record)
    (hty : (parsedOf ptt t).type = ct)
    (hk : lookupAssoc st.searchSt.searchCache
      (cacheKey (parsedOf ptt t).type (parsedOf ptt t).title
        (parsedOf ptt t).year) = some (some r))
    (hseen : r.id ∉ st.seen) :
    catalogStep ptt ct t st =
      { searchSt := st.searchSt
        resps := st.resps
        tcache :=
          if annotTruthy t then st.tcache
          else setAssoc st.tcache (toString t.id) (annotate t r.id (parsedOf ptt t))
        seen := st.seen ++ [r.id]
        metas := st.metas ++
          [mkCineMeta ct t (torrentDisplayName t) (parsedOf ptt t) r]
        parsedCount := st.parsedCount + 1 } := by
  unfold catalogStep
  rw [if_neg (by simp [hty]),
    searchCinemetaR_hit st.searchSt st.resps (parsedOf ptt t).type
      (parsedOf ptt t).title (parsedOf ptt t).year (some r) hk]
  simp [hseen]

theorem catalogStep_hit_skip (ptt : String → PttResult) (ct : MediaType)
    (t : Torrent) (st : CatalogSt) (r : Record)
    (hty : (parsedOf ptt t).type = ct)
    (hk : lookupAssoc st.searchSt.searchCache
      (cacheKey (parsedOf ptt t).type (parsedOf ptt t).title
        (parsedOf ptt t).year) = some (some r))
    (hseen : r.id ∈ st.seen) :
    catalogStep ptt ct t st = { st with parsedCount := st.parsedCount + 1 } := by
  unfold catalogStep
  rw [if_neg (by simp [hty]),
    searchCinemetaR_hit st.searchSt st.resps (parsedOf ptt t).type
      (parsedOf ptt t).title (parsedOf ptt t).year (some r) hk]
  simp [hseen]

theorem catalogLoop_pair_dedup (ptt : String → PttResult) (ct : MediaType)
    (x y : Torrent) (r : Record) (sst : SearchState) (rs : List FetchResult)
    (tc : List (String × Torrent))
    (hx : (parsedOf ptt x).type = ct) (hy : (parsedOf ptt y).type = ct)
    (hkx : lookupAssoc sst.searchCache
      (cacheKey (parsedOf ptt x).type (parsedOf ptt x).title
        (parsedOf ptt x).year) = some (some r))
    (hky : lookupAssoc sst.searchCache
      (cacheKey (parsedOf ptt y).type (parsedOf ptt y).title
        (parsedOf ptt y).year) = some (some r)) :
    (catalogLoop ptt ct [x, y] ⟨sst, rs, tc, [], [], 0⟩).metas.map
      (fun m => m.id) = [r.id] := by
  rw [catalogLoop_cons ptt ct x [y] _ (by simp),
    catalogStep_hit_emit ptt ct x _ r hx hkx (by simp)]
  rw [catalogLoop_cons ptt ct y [] _ (by simp),
    catalogStep_hit_skip ptt ct y _ r hy hky (by simp)]
  simp [catalogLoop, mkCineMeta]

/-- Claim C4: within one catalog pass the emitted `canonicalId`s are
    pairwise distinct, and two inventory entries resolving to the same
    record yield exactly one canonical entry for that record's id,
    whichever order the two entries are listed in. -/
theorem C4_theorem :
    (∀ (ptt : String → PttResult) (ct : MediaType)
        (fetch : Except Unit (List Torrent)) (sst : SearchState)
        (rs : List FetchResult) (tc : List (String × Torrent)),
      ((handleMediaCatalog ptt ct fetch sst rs tc).metas.map
        (fun m => m.id)).Nodup) ∧
    (∀ (ptt : String → PttResult) (ct : MediaType) (a b : Torrent) (r : Record)
        (sst : SearchState) (rs : List FetchResult) (tc : List (String × Torrent)),
      (parsedOf ptt a).type = ct → (parsedOf ptt b).type = ct →
      lookupAssoc sst.searchCache
        (cacheKey (parsedOf ptt a).type (parsedOf ptt a).title
          (parsedOf ptt a).year) = some (some r) →
      lookupAssoc sst.searchCache
        (cacheKey (parsedOf ptt b).type (parsedOf ptt b).title
          (parsedOf ptt b).year) = some (some r) →
      ((handleMediaCatalog ptt ct (.ok [a, b]) sst rs tc).metas.map
          (fun m => m.id) = [r.id] ∧
       (handleMediaCatalog ptt ct (.ok [b, a]) sst rs tc).metas.map
          (fun m => m.id) = [r.id])) := by
  constructor
  · intro ptt ct fetch sst rs tc
    cases fetch with
    | error e => simp [handleMediaCatalog]
    | ok ts =>
      simp only [handleMediaCatalog]
      exact (catalogLoop_inv ptt ct (jsSort ts)
        ⟨sst, rs, refreshCache tc ts, [], [], 0⟩
        (by simp) (by simp) (by simp) (by simp)).1
  · intro ptt ct a b r sst rs tc ha hb hka hkb
    constructor
    · simp only [handleMediaCatalog]
      rcases jsSort_pair a b with h | h <;> rw [h]
      · exact catalogLoop_pair_dedup ptt ct a b r sst rs _ ha hb hka hkb
      · exact catalogLoop_pair_dedup ptt ct b a r sst rs _ hb ha hkb hka
    · simp only [handleMediaCatalog]
      rcases jsSort_pair b a with h | h <;> rw [h]
      · exact catalogLoop_pair_dedup ptt ct b a r sst rs _ hb ha hkb hka
      · exact catalogLoop_pair_dedup ptt ct a b r sst rs _ ha hb hka hkb

/-- Two quality variants of the same title, and the record they both
    resolve to through the prefilled search cache. -/
def c4WitRecord : Record := ⟨"tt0099", "N", none, none, none, none, none, none⟩

def c4WitA : Torrent := ⟨1, "Q", 0, none, none, none, none, none⟩

def c4WitB : Torrent := ⟨2, "Q", 0, none, none, none, none, none⟩

def c4WitSst : SearchState := ⟨[("movie:Q:", some c4WitRecord)], []⟩

/-- Witness: `C4_theorem` applied at two concrete variants of one title. -/
theorem C4_witness :
    (handleMediaCatalog pttTitleOnly .movie (.ok [c4WitA, c4WitB])
        c4WitSst [] []).metas.map (fun m => m.id) = [c4WitRecord.id] :=
  (C4_theorem.2 pttTitleOnly .movie c4WitA c4WitB c4WitRecord c4WitSst [] []
    (by decide) (by decide) (by decide) (by decide)).1

/-! ## Claim C6: cap, kind filter, and lazy stop -/

/-- Claim C6: a catalog pass returns at most 20 entries, every returned
    entry's source name parses to the requested kind, and once a state
    with 20 emitted entries is reached the loop is insensitive to (and
    in particular never parses or resolves) any further inventory
    entries — the resulting state, including the parse trace
    `parsedCount` and the unconsumed response script, is unchanged. -/
theorem C6_theorem :
    (∀ (ptt : String → PttResult) (ct : MediaType)
        (fetch : Except Unit (List Torrent)) (sst : SearchState)
        (rs : List FetchResult) (tc : List (String × Torrent)),
      (handleMediaCatalog ptt ct fetch sst rs tc).metas.length ≤ 20 ∧
      (∀ m ∈ (handleMediaCatalog ptt ct fetch sst rs tc).metas,
        (parseTorrentName (ptt m._torrentName) m._torrentName).type = ct)) ∧
    (∀ (ptt : String → PttResult) (ct : MediaType) (l1 l2 : List Torrent)
        (st : CatalogSt),
      20 ≤ (catalogLoop ptt ct l1 st).metas.length →
      catalogLoop ptt ct (l1 ++ l2) st = catalogLoop ptt ct l1 st) := by
  constructor
  · intro ptt ct fetch sst rs tc
    cases fetch with
    | error e =>
      constructor
      · simp [handleMediaCatalog]
      · intro m hm
        simp [handleMediaCatalog] at hm
    | ok ts =>
      simp only [handleMediaCatalog]
      have h := catalogLoop_inv ptt ct (jsSort ts)
        ⟨sst, rs, refreshCache tc ts, [], [], 0⟩
        (by simp) (by simp) (by simp) (by simp)
      exact ⟨h.2.1, h.2.2⟩
  · intro ptt ct l1 l2 st h
    rw [catalogLoop_append]
    exact catalogLoop_stop ptt ct l2 _ h

def c6Entry (i : Nat) : Torrent :=
  ⟨i, "N" ++ toString i, 0, none, none, none, none, none⟩

def c6L1 : List Torrent := (List.range 20).map c6Entry

def c6St0 : CatalogSt := ⟨⟨[], []⟩, [], [], [], [], 0⟩

/-- Witness: `C6_theorem` applied at a 21-entry inventory — 20 distinct
    fallback entries fill the cap, and appending one more entry leaves
    the final state untouched — and at a concrete returned meta. -/
theorem C6_witness :
    catalogLoop pttTitleOnly .movie (c6L1 ++ [c6Entry 99]) c6St0 =
      catalogLoop pttTitleOnly .movie c6L1 c6St0 ∧
    (parseTorrentName
        (pttTitleOnly (mkFallbackMeta .movie (c6Entry 0)
          (torrentDisplayName (c6Entry 0))
          (parsedOf pttTitleOnly (c6Entry 0)))._torrentName)
        (mkFallbackMeta .movie (c6Entry 0) (torrentDisplayName (c6Entry 0))
          (parsedOf pttTitleOnly (c6Entry 0)))._torrentName).type = .movie :=
  ⟨C6_theorem.2 pttTitleOnly .movie c6L1 [c6Entry 99] c6St0 (by decide),
   (C6_theorem.1 pttTitleOnly .movie (.ok [c6Entry 0]) ⟨[], []⟩ [] []).2
     (mkFallbackMeta .movie (c6Entry 0) (torrentDisplayName (c6Entry 0))
       (parsedOf pttTitleOnly (c6Entry 0))) (by decide)⟩

/-! ## Claim C9: stream links come from a single inventory entry -/

/-- Claim C9: (i) every stream-handler invocation returns either the
    empty list or exactly the links generated from ONE inventory entry;
    (ii) in particular, for a `tt`-prefixed id, when two cached entries
    (e.g. two quality variants) both resolve to the requested record,
    only the FIRST entry in cache order is used: its annotated copy
    alone feeds link generation, and the second entry's files are never
    requested. -/
theorem C9_theorem :
    (∀ (ptt : String → PttResult) (lo : Nat × Option Nat → Option String)
        (fetch : Except Unit (List Torrent)) (sst : SearchState)
        (rs : List FetchResult) (tc : List (String × Torrent)) (ty id : String),
      (∃ t : Torrent, (defineStreamHandler ptt lo fetch sst rs tc ty id).streams =
          (generateStreamsForTorrent lo t).1) ∨
      (defineStreamHandler ptt lo fetch sst rs tc ty id).streams = []) ∧
    (∀ (ptt : String → PttResult) (lo : Nat × Option Nat → Option String)
        (sst : SearchState) (rs : List FetchResult) (ty id : String)
        (t1 t2 : Torrent) (r : Record),
      (ty = "movie" ∨ ty = "series" ∨ ty = "other") →
      strBeginsWith id "tb:" = false →
      strBeginsWith id "tt" = true →
      toString t1.id ≠ toString t2.id →
      t1._imdbId = none → t2._imdbId = none →
      lookupAssoc sst.searchCache
        (cacheKey (parseTorrentName (ptt t1.name) t1.name).type
          (parseTorrentName (ptt t1.name) t1.name).title
          (parseTorrentName (ptt t1.name) t1.name).year) = some (some r) →
      r.id = id →
      (defineStreamHandler ptt lo (.ok [t1, t2]) sst rs [] ty id).streams =
        (generateStreamsForTorrent lo { t1 with _imdbId := some id }).1) := by
  constructor
  · intro ptt lo fetch sst rs tc ty id
    by_cases hty : ty = "movie" ∨ ty = "series" ∨ ty = "other"
    · by_cases hb : strBeginsWith id "tb:" = true
      · rcases hlk : lookupAssoc tc (strDropChars id 3) with _ | t
        · cases fetch with
          | error e =>
            right
            simp [defineStreamHandler, hty, hb, hlk]
          | ok ts =>
            rcases hlk2 : lookupAssoc (refreshCache tc ts) (strDropChars id 3)
              with _ | t2
            · right
              simp [defineStreamHandler, hty, hb, hlk, hlk2]
            · left
              exact ⟨t2, by simp [defineStreamHandler, hty, hb, hlk, hlk2]⟩
        · left
          exact ⟨t, by simp [defineStreamHandler, hty, hb, hlk]⟩
      · by_cases ht : strBeginsWith id "tt" = true
        · cases fetch with
          | error e =>
            right
            simp [defineStreamHandler, hty, hb, ht]
          | ok ts =>
            rcases hann : findAnnotated (refreshCache tc ts) id with _ | t
            · rcases hres : findByResolveAux ptt id (refreshCache tc ts) sst rs
                (refreshCache tc ts) with ⟨ot, sst', rs', tc2⟩
              cases ot with
              | some t =>
                left
                exact ⟨t, by simp [defineStreamHandler, hty, hb, ht, hann, hres]⟩
              | none =>
                right
                simp [defineStreamHandler, hty, hb, ht, hann, hres]
            · left
              exact ⟨t, by simp [defineStreamHandler, hty, hb, ht, hann]⟩
        · right
          simp [defineStreamHandler, hty, hb, ht]
    · right
      simp [defineStreamHandler, hty]
  · intro ptt lo sst rs ty id t1 t2 r hty hnb htt hne h1 h2 hk hrid
    have htc : refreshCache ([] : List (String × Torrent)) [t1, t2] =
        [(toString t1.id, t1), (toString t2.id, t2)] := by
      simp [refreshCache, setAssoc, hne]
    have hann : findAnnotated [(toString t1.id, t1), (toString t2.id, t2)] id =
        none := by
      simp [findAnnotated, h1, h2]
    have hres : findByResolveAux ptt id [(toString t1.id, t1), (toString t2.id, t2)]
        sst rs [(toString t1.id, t1), (toString t2.id, t2)] =
        (some { t1 with _imdbId := some id }, sst, rs,
          setAssoc [(toString t1.id, t1), (toString t2.id, t2)] (toString t1.id)
            { t1 with _imdbId := some id }) := by
      simp only [findByResolveAux]
      rw [searchCinemetaR_hit sst rs (parseTorrentName (ptt t1.name) t1.name).type
        (parseTorrentName (ptt t1.name) t1.name).title
        (parseTorrentName (ptt t1.name) t1.name).year (some r) hk]
      simp [hrid]
    simp [defineStreamHandler, hty, hnb, htt, htc, hann, hres]

/-- The two-variant witness scenario: both cached entries resolve to the
    same record through the prefilled search cache; only the first one's
    single file produces a link. -/
def c9Record : Record := ⟨"tt0099", "N", none, none, none, none, none, none⟩

def c9T1 : Torrent := ⟨5, "Q", 0, none, none, some [⟨1, "q.mkv"⟩], none, none⟩

def c9T2 : Torrent := ⟨6, "Q", 0, none, none, some [⟨1, "r.mkv"⟩], none, none⟩

def c9Sst : SearchState := ⟨[("movie:Q:", some c9Record)], []⟩

/-- Witness: `C9_theorem` applied at the concrete two-variant scenario. -/
theorem C9_witness :
    (defineStreamHandler pttTitleOnly (fun _ => some "http://u") (.ok [c9T1, c9T2])
        c9Sst [] [] "movie" "tt0099").streams =
      (generateStreamsForTorrent (fun _ => some "http://u")
        { c9T1 with _imdbId := some "tt0099" }).1 :=
  C9_theorem.2 pttTitleOnly (fun _ => some "http://u") c9Sst [] "movie" "tt0099"
    c9T1 c9T2 c9Record (Or.inl rfl) (by decide) (by decide) (by decide)
    rfl rfl (by decide) rfl

end TorboxStatus
